import Mathlib

/-!
Verification development for the prefect-postgres repository.

The repository has two source modules:

- src/prefect_postgres/credentials.py: class PostgresDatabaseCredentials
  with six optional fields (username, password, database, host, port,
  connect_args) and a method get_connection that forwards the stored
  fields as keyword arguments to psycopg.AsyncConnection.connect.
- src/prefect_postgres/blocks.py: class PostgresBlock with one string
  field value (default "The default value") and a class method
  seed_value_for_example that saves a sample instance.

The embedding below represents Python keyword-argument passing as an
association list from parameter names to a small universe of Python
values, source-module name binding as a list of bound names, and the two
external collaborators (the psycopg driver and the prefect block storage)
as explicit function parameters respectively a spec-modelled store.
-/

/-- Atomic Python values: the possible entries of the connect_args
mapping (typed Dict of String to Any in the source; the claims only
exercise strings, integers and None). -/
inductive PyAtom where
  | str (s : String)
  | int (n : Int)
  | pyNone
deriving DecidableEq

/-- Python values passed as keyword arguments to the psycopg connect
call. A pydantic SecretStr wrapper object is represented by the
secretStr constructor, kept distinct from the plain string constructor
str, so that passing the wrapper object itself is distinguishable from
passing the revealed (unwrapped) plain string value. A Python dict
passed as a single value is the dict constructor. -/
inductive PyValue where
  | str (s : String)
  | secretStr (s : String)
  | dict (entries : List (String × PyAtom))
  | pyNone
deriving DecidableEq

/-- The pydantic SecretStr wrapper: holds the secret plain string, which
the wrapper only reveals through an explicit accessor. -/
structure SecretStr where
  secretValue : String
deriving DecidableEq

/-- An error raised by an external collaborator (driver or storage),
identified by its Python exception class name and message. Matching an
error exactly models propagation unchanged in kind. -/
structure PyError where
  kind : String
  msg : String
deriving DecidableEq

/-- A live connection handle returned by the driver; its identity is all
the component observes. -/
structure Connection where
  connId : Nat
deriving DecidableEq

/-- The record declared by class PostgresDatabaseCredentials in
src/prefect_postgres/credentials.py lines 33 to 38: six fields, each
Optional with declared default None. Field order follows the source. -/
structure PostgresDatabaseCredentials where
  username : Option String
  password : Option SecretStr
  database : Option String
  host : Option String
  port : Option String
  connect_args : Option (List (String × PyAtom))
deriving DecidableEq

/-- An Optional str field value as the keyword argument it becomes:
Python None becomes the None value, a present string is passed as the
plain string. -/
def optStrArg : Option String → PyValue
  | some s => PyValue.str s
  | none => PyValue.pyNone

/-- An Optional SecretStr field value as the keyword argument the source
passes: the source writes password=self.password, so a present value is
the SecretStr wrapper object itself (constructor secretStr), not the
revealed plain string. -/
def optSecretArg : Option SecretStr → PyValue
  | some p => PyValue.secretStr p.secretValue
  | none => PyValue.pyNone

/-- An Optional Dict field value as the keyword argument the source
passes: the source writes connect_args=self.connect_args, so a present
mapping is one dict value bound to one parameter name. -/
def optDictArg : Option (List (String × PyAtom)) → PyValue
  | some d => PyValue.dict d
  | none => PyValue.pyNone

/-- The keyword arguments of the driver call in get_connection,
src/prefect_postgres/credentials.py lines 66 to 73, in source order:
database=self.database, user=self.username, password=self.password,
host=self.host, port=self.port, connect_args=self.connect_args. -/
def get_connection_kwargs (c : PostgresDatabaseCredentials) :
    List (String × PyValue) :=
  [("database", optStrArg c.database),
   ("user", optStrArg c.username),
   ("password", optSecretArg c.password),
   ("host", optStrArg c.host),
   ("port", optStrArg c.port),
   ("connect_args", optDictArg c.connect_args)]

/-- The body of get_connection: a single return of the driver call on
the keyword arguments built from the fields of self. The external driver
collaborator is a parameter; the method adds no handling around it. -/
def get_connection (c : PostgresDatabaseCredentials)
    (connectDriver : List (String × PyValue) → Except PyError Connection) :
    Except PyError Connection :=
  connectDriver (get_connection_kwargs c)

/-- The method get_connection as a state transformer on the record: the
body is a single return expression that only reads the fields of self
and contains no assignment, so the record after the call is the record
before it, paired with whatever the driver call produced. -/
def get_connection_run (c : PostgresDatabaseCredentials)
    (connectDriver : List (String × PyValue) → Except PyError Connection) :
    Except PyError Connection × PostgresDatabaseCredentials :=
  (connectDriver (get_connection_kwargs c), c)

/-- Python builtin names visible in every module body. -/
def pythonBuiltins : List String :=
  ["str", "int", "dict", "bool", "list", "print"]

/-- The names bound at module level in src/prefect_postgres/credentials.py
by its five import statements, lines 4 to 8: the module psycopg; Any,
Dict, Optional and Union from typing; SecretStr from pydantic; Block
from prefect.blocks.core; connect from psycopg. Together with the
builtins these are all names resolvable inside the class body. -/
def credentialsModuleBoundNames : List String :=
  pythonBuiltins ++
    ["psycopg", "Any", "Dict", "Optional", "Union", "SecretStr", "Block",
     "connect"]

/-- The names the first field declaration of the class body references,
line 33: the annotation Optional[str] and the call Field(default=None,
description=...). -/
def usernameFieldDeclNames : List String :=
  ["Optional", "str", "Field"]

/-- Evaluation of a list of name references against an environment of
bound names: the first unresolvable name raises a NameError, as Python
does when the class body is evaluated at import time. -/
def evalNames (env : List String) : List String → Except String Unit
  | [] => Except.ok ()
  | n :: rest =>
    if n ∈ env then evalNames env rest
    else Except.error ("name " ++ n ++ " is not defined")

/-- The instance the declared field defaults describe (every field has
Field(default=None) in the source, lines 33 to 38): all six fields
absent. The class itself declares no validator, so nothing rejects this
combination. -/
def defaultCredentials : PostgresDatabaseCredentials :=
  { username := none, password := none, database := none, host := none,
    port := none, connect_args := none }

/-- The concrete instance of the spec example: database d, username u,
password p, host h, port 5432, connect_args with one entry sslmode
mapped to require. -/
def exampleCredentials : PostgresDatabaseCredentials :=
  { username := some "u", password := some (SecretStr.mk "p"),
    database := some "d", host := some "h", port := some "5432",
    connect_args := some [("sslmode", PyAtom.str "require")] }

/-- The record declared by class PostgresBlock in
src/prefect_postgres/blocks.py: one field value of type str with
declared default "The default value". -/
structure PostgresBlock where
  value : String
deriving DecidableEq

/-- Construction of a PostgresBlock: an explicit value if given,
otherwise the declared default from line 25 of the source. -/
def PostgresBlock.construct (v : Option String) : PostgresBlock :=
  { value := v.getD "The default value" }

/-- Modelled from the spec: the external block-storage collaborator is
not part of this repository (it lives in prefect.blocks.core). Section 6
of the spec requires it to expose save and load keyed by a string name.
The store is an association list from names to records; save with
overwrite stores the record under the name (most recent binding wins),
save without overwrite fails when the name is taken. -/
def blockSave (s : List (String × PostgresBlock)) (b : PostgresBlock)
    (name : String) (overwrite : Bool) :
    Except PyError (List (String × PostgresBlock)) :=
  if !overwrite && (List.lookup name s).isSome then
    Except.error (PyError.mk "ValueError" "block document already exists")
  else
    Except.ok ((name, b) :: s)

/-- Modelled from the spec: load by name from the block-storage
collaborator; a missing name is a storage error, a present name returns
the stored record. -/
def blockLoad (s : List (String × PostgresBlock)) (name : String) :
    Except PyError PostgresBlock :=
  match List.lookup name s with
  | some b => Except.ok b
  | none => Except.error (PyError.mk "ValueError" "block document not found")

/-- The class method seed_value_for_example, src/prefect_postgres/blocks.py
lines 27 to 33: construct an instance with value "A sample value" and
call its save with name "sample-block" and overwrite True. The save
operation of the external storage collaborator is a parameter; the
method neither catches its error nor returns a value of its own. -/
def seed_value_for_example
    (saveOp : PostgresBlock → String → Bool → Except PyError Unit) :
    Except PyError Unit :=
  saveOp (PostgresBlock.construct (some "A sample value")) "sample-block" true

/-- C1: the spec claims each entry of connect_args is passed as its own
independent keyword parameter. On the example instance the source
instead passes one keyword parameter named connect_args whose value is
the whole mapping (lines 66 to 73 write connect_args=self.connect_args,
not a spread), so no keyword parameter sslmode reaches the driver: the
call has six parameter names, with username correctly mapped to user,
but the sixth is the nested connect_args key the claim excludes. This
contradicts the class docstring of the field, which says the options are
passed directly to the psycopg connect method as additional keyword
arguments. -/
theorem connect_args_nested_not_spread :
    get_connection_kwargs exampleCredentials =
      [("database", PyValue.str "d"), ("user", PyValue.str "u"),
       ("password", PyValue.secretStr "p"), ("host", PyValue.str "h"),
       ("port", PyValue.str "5432"),
       ("connect_args", PyValue.dict [("sslmode", PyAtom.str "require")])] ∧
    List.lookup "sslmode" (get_connection_kwargs exampleCredentials) = none ∧
    List.lookup "connect_args" (get_connection_kwargs exampleCredentials) =
      some (PyValue.dict [("sslmode", PyAtom.str "require")]) := by
  decide

/-- C2: the spec claims the password is unwrapped from its secret-holder
before the driver call. On an instance whose password is the wrapped
string p, the source passes the SecretStr wrapper object itself
(password=self.password, with no reveal accessor applied), not the
unwrapped plain string value. -/
theorem password_passed_as_wrapper_not_unwrapped :
    List.lookup "password"
        (get_connection_kwargs
          { defaultCredentials with password := some (SecretStr.mk "p") }) =
      some (PyValue.secretStr "p") ∧
    List.lookup "password"
        (get_connection_kwargs
          { defaultCredentials with password := some (SecretStr.mk "p") }) ≠
      some (PyValue.str "p") := by
  decide

/-- C3: the credentials module binds exactly psycopg, the typing names
Any, Dict, Optional and Union, SecretStr, Block and connect, so the name
Field referenced by the field declarations of the class body is unbound
and evaluating the first declaration raises a NameError before any
instance can be constructed. -/
theorem credentials_field_name_unbound :
    "Field" ∉ credentialsModuleBoundNames ∧
    evalNames credentialsModuleBoundNames usernameFieldDeclNames =
      Except.error "name Field is not defined" :=
  ⟨by decide, rfl⟩

/-- C4: the claim says constructing the class with no arguments succeeds
with every field None. The declared defaults do describe the all-absent
instance and no validator rejects it, but evaluating the class body as
written fails with a NameError on Field, so in the code as it stands no
construction can happen at all: the missing pydantic Field import (which
the sibling module blocks.py does have) blocks the clearly intended
behaviour. -/
theorem default_construction_all_fields_absent :
    evalNames credentialsModuleBoundNames usernameFieldDeclNames =
      Except.error "name Field is not defined" ∧
    defaultCredentials.username = none ∧
    defaultCredentials.password = none ∧
    defaultCredentials.database = none ∧
    defaultCredentials.host = none ∧
    defaultCredentials.port = none ∧
    defaultCredentials.connect_args = none :=
  ⟨rfl, rfl, rfl, rfl, rfl, rfl, rfl⟩

/-- C5: whenever the driver call raises an error, get_connection returns
that same error to the caller unchanged in kind and message, with no
retry, wrapping or added context: the method body is exactly the one
driver call. -/
theorem get_connection_error_passthrough
    (c : PostgresDatabaseCredentials)
    (connectDriver : List (String × PyValue) → Except PyError Connection)
    (e : PyError)
    (h : connectDriver (get_connection_kwargs c) = Except.error e) :
    get_connection c connectDriver = Except.error e := h

/-- C5 witness: a driver that rejects every attempt with an
authentication failure makes get_connection return exactly that
failure. -/
theorem get_connection_error_passthrough_witness :
    get_connection defaultCredentials
        (fun _ => Except.error (PyError.mk "OperationalError" "authentication failed")) =
      Except.error (PyError.mk "OperationalError" "authentication failed") :=
  get_connection_error_passthrough defaultCredentials
    (fun _ => Except.error (PyError.mk "OperationalError" "authentication failed"))
    (PyError.mk "OperationalError" "authentication failed") rfl

/-- C6: for every store state, every name and every record, save with
overwrite true followed by load of the same name returns exactly the
saved record, so all its field values round-trip through the
spec-modelled block-storage collaborator. -/
theorem save_load_roundtrip (s : List (String × PostgresBlock))
    (name : String) (b : PostgresBlock) :
    (blockSave s b name true).bind (fun s2 => blockLoad s2 name) =
      Except.ok b := by
  simp [blockSave, blockLoad, Except.bind, List.lookup]

/-- C7: constructing a PostgresBlock with no explicit value yields an
instance whose value field is the documented default string. -/
theorem postgres_block_default_value :
    (PostgresBlock.construct none).value = "The default value" :=
  rfl

/-- C8: seed_value_for_example is exactly one save call on the external
storage collaborator, of an instance whose value field is the fixed
sample string, under the fixed name sample-block with overwrite enabled,
returning Unit on success; and any storage-layer error is propagated
to the caller, not caught. -/
theorem seed_value_for_example_contract
    (saveOp : PostgresBlock → String → Bool → Except PyError Unit) :
    (PostgresBlock.construct (some "A sample value")).value = "A sample value" ∧
    seed_value_for_example saveOp =
      saveOp (PostgresBlock.construct (some "A sample value")) "sample-block" true ∧
    (∀ e : PyError,
      saveOp (PostgresBlock.construct (some "A sample value")) "sample-block" true =
          Except.error e →
      seed_value_for_example saveOp = Except.error e) :=
  ⟨rfl, rfl, fun _ h => h⟩

/-- C8 witness: with a storage collaborator that always fails, the seed
method surfaces exactly the storage error. -/
theorem seed_value_for_example_contract_witness :
    seed_value_for_example
        (fun _ _ _ => Except.error (PyError.mk "RuntimeError" "storage unreachable")) =
      Except.error (PyError.mk "RuntimeError" "storage unreachable") :=
  (seed_value_for_example_contract
      (fun _ _ _ => Except.error (PyError.mk "RuntimeError" "storage unreachable"))).2.2
    (PyError.mk "RuntimeError" "storage unreachable") rfl

/-- C9: the port field is stored as an optional text string (the field
type in the embedding, matching Optional str in the source), and for
every instance get_connection passes the stored value to the driver
under the parameter name port exactly as stored: a present string p is
passed as the plain string p, an absent port as None, with no conversion
or normalization. -/
theorem port_passed_as_stored (c : PostgresDatabaseCredentials) :
    List.lookup "port" (get_connection_kwargs c) = some (optStrArg c.port) ∧
    (∀ p : String, c.port = some p →
      List.lookup "port" (get_connection_kwargs c) = some (PyValue.str p)) := by
  refine ⟨rfl, fun p hp => ?_⟩
  have : optStrArg c.port = PyValue.str p := by rw [hp]; rfl
  calc List.lookup "port" (get_connection_kwargs c) = some (optStrArg c.port) := rfl
    _ = some (PyValue.str p) := by rw [this]

/-- C10: running get_connection leaves the record unchanged: the second
component of the state-passing embedding equals the input record for
every driver, whether the driver call succeeds or raises, so none of the
six fields is mutated by the only action method of the type. -/
theorem get_connection_leaves_fields_unchanged
    (c : PostgresDatabaseCredentials)
    (connectDriver : List (String × PyValue) → Except PyError Connection) :
    (get_connection_run c connectDriver).2 = c ∧
    (get_connection_run c connectDriver).2.username = c.username ∧
    (get_connection_run c connectDriver).2.password = c.password ∧
    (get_connection_run c connectDriver).2.database = c.database ∧
    (get_connection_run c connectDriver).2.host = c.host ∧
    (get_connection_run c connectDriver).2.port = c.port ∧
    (get_connection_run c connectDriver).2.connect_args = c.connect_args :=
  ⟨rfl, rfl, rfl, rfl, rfl, rfl, rfl⟩

/-- C9 witness: on the example instance with port 5432, the driver
receives the parameter port with exactly the stored text 5432. -/
theorem port_passed_as_stored_witness :
    List.lookup "port" (get_connection_kwargs exampleCredentials) =
      some (PyValue.str "5432") :=
  (port_passed_as_stored exampleCredentials).2 "5432" rfl
